import Mathlib

/-!
Verification of the linearizable-read coordination protocol implemented in
`examples/raft-kv-memstore/src/network/api.rs`.

The file embeds the three handlers of that module — `write`, `read` and
`consistent_read` — as pure Lean functions over an explicit environment that
records the outcomes of the external collaborators (the consensus engine's
`is_leader`, `external_request` / the oneshot channel, the metrics wait, and
the key-value state machine).  Each embedded operation also returns the ordered
trace of external calls it makes, so that short-circuiting and ordering
properties can be stated.
-/

namespace RaftKv

/-- Node identifier: `NodeId` is `u64` in the example. -/
abbrev NodeId := Nat

/-- The part of `openraft::LogId` the example uses: `fn_read_index` projects
`log_id.index`. -/
structure LogId where
  term : Nat
  index : Nat
deriving DecidableEq

/-- The part of `openraft::RaftState` read by the `external_request` callback:
the committed log id, absent when nothing has been committed yet. -/
structure RaftState where
  committed : Option LogId
deriving DecidableEq

/-- `openraft::error::Fatal`; the example only ever constructs `Fatal::Stopped`. -/
inductive Fatal where
  | stopped
deriving DecidableEq

/-- Modelled from the spec: `openraft::error::CheckIsLeaderError` is repository
code not under src/.  The spec's `LeadershipStatus` failure variants are
NotLeader (with an optional hint to the actual leader) and Unknown/Error. -/
inductive CheckIsLeaderError where
  | forwardToLeader (leader : Option NodeId)
  | unknown
deriving DecidableEq

/-- `openraft::error::RaftError<NID, E>`: an API-level error or a fatal error of
the consensus engine. -/
inductive RaftError (E : Type) where
  | apiError (e : E)
  | fatal (f : Fatal)
deriving DecidableEq

/-- `openraft::error::Infallible`: an error type with no values, used by the
local read path. -/
inductive Infallible : Type

/-- Modelled from the spec: `openraft::error::WaitError` is repository code not
under src/.  The ApplyTracker "must distinguish engine stopped from deadline
elapsed", so the wait fails either by timeout or by shutdown. -/
inductive WaitError where
  | timeout
  | shuttingDown
deriving DecidableEq

/-- The external calls the handlers can make, recorded in order: the leadership
check (`app.raft.is_leader()`), the read-index capture (`external_request` plus
awaiting the oneshot channel), the apply-wait
(`app.raft.wait(...).log_at_least(read_index, ...)`, with the threshold it was
given), and the state-machine read. -/
inductive CallEvent where
  | checkLeader
  | captureReadIndex
  | waitUntilApplied (readIndex : Option Nat)
  | readStateMachine
deriving DecidableEq

/-- The outcomes of the external collaborators during one `consistent_read`
call: the result of `app.raft.is_leader()`; whether the raft core runs the
`external_request` callback (when it does not, the oneshot sender is dropped
and `rx.await` returns a receive error); the `RaftState` the callback observes;
the outcome of the metrics wait; and the state machine's key-value map. -/
structure ReadEnv where
  isLeaderResult : Except (RaftError CheckIsLeaderError) Unit
  coreDelivers : Bool
  raftState : RaftState
  waitResult : Except WaitError Unit
  stateMachine : List (String × String)

/-- Embedding of `consistent_read` (api.rs, `/consistent_read`): check
leadership; on success capture `read_index = raft_state.committed.map(|log_id|
log_id.index)` through the oneshot channel (a receive error becomes
`Err(RaftError::Fatal(Fatal::Stopped))`); wait until the metrics report the log
applied at least to `read_index` (any wait error becomes
`Err(RaftError::Fatal(Fatal::Stopped))`); only then read the state machine and
return the value, `unwrap_or_default()` on an absent key.  A leadership-check
error is returned verbatim.  The second component is the trace of external
calls. -/
def consistent_read (env : ReadEnv) (key : String) :
    Except (RaftError CheckIsLeaderError) String × List CallEvent :=
  match env.isLeaderResult with
  | Except.ok _ =>
    if env.coreDelivers then
      let read_index := env.raftState.committed.map (fun log_id => log_id.index)
      match env.waitResult with
      | Except.ok _ =>
        (Except.ok ((env.stateMachine.lookup key).getD ""),
          [CallEvent.checkLeader, CallEvent.captureReadIndex,
            CallEvent.waitUntilApplied read_index, CallEvent.readStateMachine])
      | Except.error _ =>
        (Except.error (RaftError.fatal Fatal.stopped),
          [CallEvent.checkLeader, CallEvent.captureReadIndex,
            CallEvent.waitUntilApplied read_index])
    else
      (Except.error (RaftError.fatal Fatal.stopped),
        [CallEvent.checkLeader, CallEvent.captureReadIndex])
  | Except.error e => (Except.error e, [CallEvent.checkLeader])

/-- Embedding of `read` (api.rs, `/read`): the local, non-linearizable read.
It only reads the state machine (`value.unwrap_or_default()` on an absent key)
and its result type is `Result<String, Infallible>`. -/
def read (stateMachine : List (String × String)) (key : String) :
    Except Infallible String × List CallEvent :=
  (Except.ok ((stateMachine.lookup key).getD ""), [CallEvent.readStateMachine])

/-- Modelled from the spec: the example store's request type
(`crate::store::Request`) is repository code not under src/; the spec treats it
as an opaque "command".  The store's only variant is `Set { key, value }`. -/
inductive Request where
  | set (key : String) (value : String)
deriving DecidableEq

/-- Modelled from the spec: the consensus-write path's success outcome is opaque
to this core (spec 4.3: a pass-through boundary). -/
structure ClientWriteResponse where
  logId : LogId
deriving DecidableEq

/-- Modelled from the spec: the consensus-write path's API error is opaque to
this core; its representative variant forwards to the actual leader. -/
inductive ClientWriteError where
  | forwardToLeader (leader : Option NodeId)
deriving DecidableEq

/-- The external collaborator of the write handler: `app.raft.client_write`. -/
structure WriteEnv where
  clientWrite : Request → Except (RaftError ClientWriteError) ClientWriteResponse

/-- Embedding of `write` (api.rs, `/write`): forwards the request to
`app.raft.client_write(req.0)` and returns the response unchanged. -/
def write (env : WriteEnv) (req : Request) :
    Except (RaftError ClientWriteError) ClientWriteResponse :=
  env.clientWrite req

/-- The order on optional log indices: `none` (no entry yet) is below every
index. -/
def optNatLe : Option Nat → Option Nat → Bool
  | none, _ => true
  | some _, none => false
  | some a, some b => Nat.ble a b

/-- Modelled from the spec: openraft's `Wait::log_at_least` is repository code
not under src/.  Per the spec's ApplyTracker ("wait until applied index ≥ N",
where an absent index is a valid distinguished value below every index), the
wait's condition on threshold `t` holds in a state with applied index `a`
exactly when `t ≤ a` in the `optNatLe` order; a `none` threshold is therefore
satisfied by every state. -/
def logAtLeastReached (threshold applied : Option Nat) : Bool :=
  optNatLe threshold applied

/-- A run in which the leadership check succeeds, read index 10 is captured,
and the apply-wait fails with a timeout. -/
def envWaitTimedOut : ReadEnv :=
  { isLeaderResult := Except.ok ()
    coreDelivers := true
    raftState := { committed := some { term := 1, index := 10 } }
    waitResult := Except.error WaitError.timeout
    stateMachine := [("k", "v")] }

/-- The same run, but the apply-wait fails because the engine shut down. -/
def envEngineStopped : ReadEnv :=
  { envWaitTimedOut with waitResult := Except.error WaitError.shuttingDown }

/-- A run in which the leadership check rejects the node as not the leader. -/
def envNotLeader : ReadEnv :=
  { isLeaderResult :=
      Except.error (RaftError.apiError (CheckIsLeaderError.forwardToLeader (some 2)))
    coreDelivers := true
    raftState := { committed := some { term := 1, index := 3 } }
    waitResult := Except.ok ()
    stateMachine := [("k", "v")] }

/-- A fully successful run with committed index 5 and key "k" bound to "v". -/
def envLeaderOk : ReadEnv :=
  { isLeaderResult := Except.ok ()
    coreDelivers := true
    raftState := { committed := some { term := 1, index := 5 } }
    waitResult := Except.ok ()
    stateMachine := [("k", "v")] }

/-- A run in which the raft core dropped the read-index callback, so the
oneshot receive fails. -/
def envRecvDropped : ReadEnv :=
  { isLeaderResult := Except.ok ()
    coreDelivers := false
    raftState := { committed := none }
    waitResult := Except.ok ()
    stateMachine := [] }

/-- A successful run in which nothing has been committed yet. -/
def envNoneCommitted : ReadEnv :=
  { isLeaderResult := Except.ok ()
    coreDelivers := true
    raftState := { committed := none }
    waitResult := Except.ok ()
    stateMachine := [] }

/-- A successful run whose state machine does not contain key "k". -/
def envAbsentKey : ReadEnv :=
  { isLeaderResult := Except.ok ()
    coreDelivers := true
    raftState := { committed := some { term := 1, index := 5 } }
    waitResult := Except.ok ()
    stateMachine := [("other", "w")] }

/-- A successful run whose state machine maps key "k" to the empty string. -/
def envEmptyValue : ReadEnv :=
  { isLeaderResult := Except.ok ()
    coreDelivers := true
    raftState := { committed := some { term := 1, index := 5 } }
    waitResult := Except.ok ()
    stateMachine := [("k", "")] }

/-- A committed-index trajectory that is constant at index 5, used to
instantiate the monotonicity hypothesis at a concrete input. -/
def committedConst : Nat → Option LogId := fun _ => some { term := 1, index := 5 }

/-- C1: at the failing input — the leadership check succeeds, read index 10 is
captured, but the apply-wait fails with a timeout — `consistent_read` returns
`Err(RaftError::Fatal(Fatal::Stopped))` and no value, and this error is
identical to the one produced when the wait fails because the engine shut
down: the timeout is not reported through a distinct timeout error kind. -/
theorem consistent_read_timeout_error_not_distinct :
    (consistent_read envWaitTimedOut "k").1
        = Except.error (RaftError.fatal Fatal.stopped)
      ∧ (consistent_read envWaitTimedOut "k").1
        = (consistent_read envEngineStopped "k").1 :=
  ⟨rfl, rfl⟩

/-- C2: if `is_leader` returns an error (in particular the not-leader
rejection), `consistent_read` returns exactly that error, and its call trace
contains only the leadership check — no read-index capture, no apply-wait and
no state-machine read happen. -/
theorem consistent_read_not_leader_short_circuits
    (env : ReadEnv) (key : String) (e : RaftError CheckIsLeaderError)
    (h : env.isLeaderResult = Except.error e) :
    consistent_read env key = (Except.error e, [CallEvent.checkLeader]) := by
  simp [consistent_read, h]

/-- C2 at a concrete input: a forward-to-leader rejection is returned verbatim
with only the leadership check in the trace. -/
theorem consistent_read_not_leader_short_circuits_witness :
    consistent_read envNotLeader "k"
      = (Except.error
          (RaftError.apiError (CheckIsLeaderError.forwardToLeader (some 2))),
        [CallEvent.checkLeader]) :=
  consistent_read_not_leader_short_circuits envNotLeader "k" _ rfl

/-- C3: when the leadership check succeeds, the read index is captured and the
apply-wait succeeds, `consistent_read` returns `Ok` of the value stored under
the key — the empty string, not an error, when the key is absent — and the
trace shows the state machine is read only after the apply-wait. -/
theorem consistent_read_success_serves_value
    (env : ReadEnv) (key : String)
    (hl : env.isLeaderResult = Except.ok ())
    (hc : env.coreDelivers = true)
    (hw : env.waitResult = Except.ok ()) :
    consistent_read env key
      = (Except.ok ((env.stateMachine.lookup key).getD ""),
        [CallEvent.checkLeader, CallEvent.captureReadIndex,
          CallEvent.waitUntilApplied
            (env.raftState.committed.map (fun log_id => log_id.index)),
          CallEvent.readStateMachine]) := by
  simp [consistent_read, hl, hc, hw]

/-- C3 at a concrete input: committed index 5, key "k" bound to "v"; the read
returns `Ok "v"` and reads the state machine after the wait on index 5. -/
theorem consistent_read_success_serves_value_witness :
    consistent_read envLeaderOk "k"
      = (Except.ok "v",
        [CallEvent.checkLeader, CallEvent.captureReadIndex,
          CallEvent.waitUntilApplied (some 5), CallEvent.readStateMachine]) :=
  consistent_read_success_serves_value envLeaderOk "k" rfl rfl rfl

/-- C4: if any step fails — the leadership check, the read-index capture, or
the apply-wait — `consistent_read` returns an error: no failure is masked as
success and no value is served in place of a failed linearizable read. -/
theorem consistent_read_failure_never_returns_value
    (env : ReadEnv) (key : String)
    (h : (∃ e, env.isLeaderResult = Except.error e)
        ∨ env.coreDelivers = false
        ∨ (∃ w, env.waitResult = Except.error w)) :
    ∃ err, (consistent_read env key).1 = Except.error err := by
  rcases h with ⟨e, he⟩ | hc | ⟨w, hw⟩
  · exact ⟨e, by simp [consistent_read, he]⟩
  · cases hl : env.isLeaderResult with
    | error e => exact ⟨e, by simp [consistent_read, hl]⟩
    | ok u => exact ⟨RaftError.fatal Fatal.stopped, by simp [consistent_read, hl, hc]⟩
  · cases hl : env.isLeaderResult with
    | error e => exact ⟨e, by simp [consistent_read, hl]⟩
    | ok u =>
      cases hc : env.coreDelivers with
      | false =>
        exact ⟨RaftError.fatal Fatal.stopped, by simp [consistent_read, hl, hc]⟩
      | true =>
        exact ⟨RaftError.fatal Fatal.stopped, by simp [consistent_read, hl, hc, hw]⟩

/-- C4 at a concrete input: with the read-index capture failing, the call
returns some error. -/
theorem consistent_read_failure_never_returns_value_witness :
    ∃ err, (consistent_read envRecvDropped "k").1 = Except.error err :=
  consistent_read_failure_never_returns_value envRecvDropped "k" (Or.inr (Or.inl rfl))

/-- C5: when, after a successful leadership check, the read-index capture fails
(the raft core dropped the callback because it stopped) or the apply-wait
fails with the shutdown error, `consistent_read` returns the fatal variant
`Err(RaftError::Fatal(Fatal::Stopped))` and no value. -/
theorem consistent_read_fatal_unavailable
    (env : ReadEnv) (key : String)
    (hl : env.isLeaderResult = Except.ok ())
    (h : env.coreDelivers = false
        ∨ env.waitResult = Except.error WaitError.shuttingDown) :
    (consistent_read env key).1 = Except.error (RaftError.fatal Fatal.stopped) := by
  rcases h with hc | hw
  · simp [consistent_read, hl, hc]
  · cases hc : env.coreDelivers with
    | false => simp [consistent_read, hl, hc]
    | true => simp [consistent_read, hl, hc, hw]

/-- C5 at a concrete input: the oneshot receive fails after a successful
leadership check and the call returns the fatal error. -/
theorem consistent_read_fatal_unavailable_witness :
    (consistent_read envRecvDropped "k").1
      = Except.error (RaftError.fatal Fatal.stopped) :=
  consistent_read_fatal_unavailable envRecvDropped "k" rfl (Or.inl rfl)

/-- C6: if the committed index is non-decreasing over time, the leadership
check observed the committed index at time `t1`, and the read-index capture
re-derives it from the raft state at a later time `t2`, then any threshold the
apply-wait is given during `consistent_read` is at least the committed index
the leadership check returned. -/
theorem consistent_read_wait_index_dominates
    (committedAt : Nat → Option LogId) (t1 t2 : Nat)
    (env : ReadEnv) (key : String) (i : Option Nat)
    (hmono : ∀ s t, s ≤ t →
      optNatLe ((committedAt s).map (fun log_id => log_id.index))
        ((committedAt t).map (fun log_id => log_id.index)) = true)
    (h12 : t1 ≤ t2)
    (hstate : env.raftState.committed = committedAt t2)
    (hi : CallEvent.waitUntilApplied i ∈ (consistent_read env key).2) :
    optNatLe ((committedAt t1).map (fun log_id => log_id.index)) i = true := by
  have hkey : i = (committedAt t2).map (fun log_id => log_id.index) := by
    cases hl : env.isLeaderResult with
    | error e => simp [consistent_read, hl] at hi
    | ok u =>
      cases hc : env.coreDelivers with
      | false => simp [consistent_read, hl, hc] at hi
      | true =>
        cases hw : env.waitResult with
        | error w =>
          simp [consistent_read, hl, hc, hw] at hi
          rw [hi, hstate]
        | ok v =>
          simp [consistent_read, hl, hc, hw] at hi
          rw [hi, hstate]
  rw [hkey]
  exact hmono t1 t2 h12

/-- C6 at a concrete input: with the committed trajectory constant at index 5,
the wait threshold recorded in the trace, `some 5`, dominates the committed
index the check returned. -/
theorem consistent_read_wait_index_dominates_witness :
    optNatLe ((committedConst 0).map (fun log_id => log_id.index)) (some 5) = true :=
  consistent_read_wait_index_dominates committedConst 0 1 envLeaderOk "k" (some 5)
    (fun _ _ _ => rfl) (Nat.zero_le 1) rfl (by decide)

/-- C7: the local read always succeeds: it makes no leadership check and no
apply-wait (its trace is the single state-machine read), it returns the state
machine's value for the key with the empty string for an absent key, and its
error type `Infallible` has no values at all. -/
theorem read_always_succeeds (stateMachine : List (String × String)) (key : String) :
    read stateMachine key
      = (Except.ok ((stateMachine.lookup key).getD ""), [CallEvent.readStateMachine])
    ∧ (∀ e : Infallible, False) :=
  ⟨rfl, fun e => nomatch e⟩

/-- C8: the write handler forwards the command to the external consensus-write
path `client_write` and returns its outcome verbatim, success or error, with
no reinterpretation and no retry. -/
theorem write_is_pass_through (env : WriteEnv) (req : Request) :
    write env req = env.clientWrite req :=
  rfl

/-- C9: when the leadership check succeeds and nothing has been committed yet
(`committed = none`), the read does not error: the `none` read index is the
threshold handed to the apply-wait, that threshold is satisfied by every
applied state, and the local state-machine value is served. -/
theorem consistent_read_none_read_index
    (env : ReadEnv) (key : String) (applied : Option Nat)
    (hl : env.isLeaderResult = Except.ok ())
    (hcommit : env.raftState.committed = none)
    (hc : env.coreDelivers = true)
    (hw : env.waitResult = Except.ok ()) :
    (consistent_read env key).1
        = Except.ok ((env.stateMachine.lookup key).getD "")
      ∧ CallEvent.waitUntilApplied none ∈ (consistent_read env key).2
      ∧ logAtLeastReached none applied = true := by
  refine ⟨?_, ?_, rfl⟩
  · simp [consistent_read, hl, hc, hw]
  · simp [consistent_read, hl, hc, hw, hcommit]

/-- C9 at a concrete input: a successful run with no committed entry returns
`Ok ""`, its trace waits on the `none` threshold, and that threshold is
satisfied by the applied state `some 0`. -/
theorem consistent_read_none_read_index_witness :
    (consistent_read envNoneCommitted "k").1 = Except.ok ""
      ∧ CallEvent.waitUntilApplied none ∈ (consistent_read envNoneCommitted "k").2
      ∧ logAtLeastReached none (some 0) = true :=
  consistent_read_none_read_index envNoneCommitted "k" (some 0) rfl rfl rfl rfl

/-- C10: the empty sentinel is the empty string (`String::default()`): on a key
that was never written and on a key whose stored value is the empty string,
both the local read and a successful linearizable read return `Ok ""`, so the
caller cannot tell the two apart. -/
theorem empty_sentinel_indistinguishable
    (env envE : ReadEnv) (key : String)
    (habsent : env.stateMachine.lookup key = none)
    (hempty : envE.stateMachine.lookup key = some "")
    (hl : env.isLeaderResult = Except.ok ())
    (hc : env.coreDelivers = true)
    (hw : env.waitResult = Except.ok ())
    (hl2 : envE.isLeaderResult = Except.ok ())
    (hc2 : envE.coreDelivers = true)
    (hw2 : envE.waitResult = Except.ok ()) :
    (consistent_read env key).1 = Except.ok ""
      ∧ (consistent_read envE key).1 = Except.ok ""
      ∧ (read env.stateMachine key).1 = Except.ok ""
      ∧ (read envE.stateMachine key).1 = Except.ok "" := by
  refine ⟨?_, ?_, ?_, ?_⟩
  · simp [consistent_read, hl, hc, hw, habsent]
  · simp [consistent_read, hl2, hc2, hw2, hempty]
  · simp [read, habsent]
  · simp [read, hempty]

/-- C10 at a concrete input: key "k" absent in one run, stored as "" in the
other; all four reads return `Ok ""`. -/
theorem empty_sentinel_indistinguishable_witness :
    (consistent_read envAbsentKey "k").1 = Except.ok ""
      ∧ (consistent_read envEmptyValue "k").1 = Except.ok ""
      ∧ (read envAbsentKey.stateMachine "k").1 = Except.ok ""
      ∧ (read envEmptyValue.stateMachine "k").1 = Except.ok "" :=
  empty_sentinel_indistinguishable envAbsentKey envEmptyValue "k"
    (by decide) (by decide) rfl rfl rfl rfl rfl rfl

end RaftKv
